import Mathlib

/-!
# Verification of `highlight_arm_system_insn.py`

A shallow embedding of the algorithmic core of the IDA script
`highlight_arm_system_insn.py`: the system-instruction classifier, the
register-signature resolver (`identify_register`), the backward/forward
bitfield tracers (`backtrack_fields` / `track_fields`), the PSR/PSTATE
immediate decoders and the dispatcher `markup_system_insn`.

Host (IDA) calls are modelled as fields of an abstract instruction record
`Insn`: `print_insn_mnem` is `Insn.mnem`, `print_operand ea i` is `Insn.op i`
(empty string when the operand does not exist, as in IDA), `get_operand_value
ea i` is `Insn.val i`, `get_wide_dword (get_operand_value ea 1)` — the
literal-pool word fetched by the LDR case — is `Insn.poolVal`,
`DecodeInstruction(ea).Op1.specflag1` is `Insn.cpNum` and `GetDisasm ea` is
`Insn.disasm`.  The instruction stream around an anchor is modelled as a list
of such records: for the backward tracer the list is in backward program
order (head = instruction immediately preceding the anchor), for the forward
tracer in forward order (head = instruction immediately following).
Comment side effects (`set_cmt`) are modelled as returned `(index, text)`
pairs, where `index` is the distance (in instructions) from the anchor along
the trace direction.
-/

namespace ArmHighlight

/-- Abstract decoded instruction, covering exactly the host-interface calls
the script makes on one instruction. -/
structure Insn where
  mnem : String
  ops : List String
  vals : List Nat
  poolVal : Nat
  cpNum : Nat
  disasm : String
  deriving DecidableEq, Repr

/-- Model of `print_operand ea i` (IDA renders a missing operand as the empty string). -/
def Insn.op (i : Insn) (n : Nat) : String := i.ops.getD n ""

/-- Model of `get_operand_value ea i`. -/
def Insn.val (i : Insn) (n : Nat) : Nat := i.vals.getD n 0

/-- Python `dict.get`: the tables of the script are dict literals without
repeated keys, so an association-list lookup is faithful. -/
def dictGet {α β : Type} [DecidableEq α] : List (α × β) → α → Option β
  | [], _ => none
  | (k, v) :: r, key => if key = k then some v else dictGet r key

/-- Python `sep.join(l)`. -/
def pyJoin (sep : String) : List String → String
  | [] => ""
  | [x] => x
  | x :: y :: r => x ++ sep ++ pyJoin sep (y :: r)

/-- Python `fmt % args` restricted to `%s` placeholders (the only ones the
script's resolver uses), at the character level. -/
def pyFmt : List Char → List String → List Char
  | [], _ => []
  | '%' :: 's' :: r, a :: rest => a.data ++ pyFmt r rest
  | c :: cs, args => c :: pyFmt cs args

/-- Python `s.split(sep)` for a one-character separator (no merging of
adjacent separators, empty pieces kept), at the character level. -/
def pySplitChars (sep : Char) : List Char → List (List Char)
  | [] => [[]]
  | c :: cs =>
    let r := pySplitChars sep cs
    if c = sep then [] :: r
    else (c :: r.headD []) :: r.tail

/-- Python `s.split(sep)` on strings. -/
def pySplit (s : String) (sep : Char) : List String :=
  (pySplitChars sep s.data).map (fun l => ⟨l⟩)

/-- The tuple `SYSTEM_INSN` exactly as Python evaluates the literal at lines
16–54.  Note: the source omits the comma after `"HINT"` (line 33) and after
`"BXJ"` (line 41), so Python's adjacent-string-literal concatenation yields
the single elements `"HINTBKPT"` and `"BXJRFE"` in place of the four intended
mnemonics. -/
def SYSTEM_INSN : List String := [
  "MSR", "MRS", "CPSIE", "CPSID",
  "MRC", "MRC2", "MRRC", "MRRC2", "MCR", "MCR2", "MCRR", "MCRR2",
  "LDC", "LDC2", "STC", "STC2", "CDP", "CDP2",
  "SYS", "SYSL", "IC", "DC", "AT", "TLBI",
  "DSB", "DMB", "ISB", "CLREX",
  "SRS", "VMRS", "VMSR", "DBG", "DCPS1", "DCPS2", "DCPS3", "DRPS",
  "YIELD", "WFE", "WFI", "SEV", "SEVL", "HINTBKPT",
  "BRK", "SVC", "SWI", "SMC", "SMI", "HVC",
  "ENTERX", "LEAVEX", "BXJRFE",
  "ERET",
  "PACDA", "PACDZA", "PACDB", "PACDZB", "PACGA",
  "PACIA", "PACIA1716", "PACIASP", "PACIAZ", "PACIZA",
  "PACIB", "PACIB1716", "PACIBSP", "PACIBZ", "PACIZB",
  "AUTDA", "AUTDZA", "AUTDB", "AUTDZB",
  "AUTIA", "AUTIA1716", "AUTIASP", "AUTIAZ", "AUTIZA",
  "AUTIB", "AUTIB1716", "AUTIBSP", "AUTIBZ", "AUTIZB"]

/-- The classifier `is_system_insn` (lines 1374–1383).  `mnem` is `print_insn_mnem ea`,
`op0`/`op1` are `print_operand ea 0` / `print_operand ea 1`. -/
def is_system_insn (mnem op0 op1 : String) : Bool :=
  if mnem.length > 0 then
    if SYSTEM_INSN.contains mnem then true
    else if mnem.take 3 = "LDM" ∧ op1.takeRight 1 = "^" then true
    else if (mnem.take 4 = "SUBS" ∨ mnem.take 4 = "MOVS")
            ∧ op0 = "PC" ∧ op1 = "LR" then true
    else false
  else false

/-- Model of `extract_bits` (lines 1371–1372): the `(abbrev, name)` pairs of the
bitfield table whose bit is set in `value`, in table order. -/
def extract_bits (bitmap : List (Nat × String × String)) (value : Nat) :
    List (String × String) :=
  (bitmap.filter (fun b => value &&& (1 <<< b.1) ≠ 0)).map Prod.snd

/-- Model of `backtrack_fields` (lines 1385–1407) on the stream of instructions
preceding the anchor, head first (i.e. in backward program order).  The
result collects the `set_cmt` calls as `(steps-back - 1, text)` pairs:
`(0, t)` annotates the instruction immediately preceding the anchor.
`print_operand(..)[0]` is modelled as `String.take 1` (the script only
indexes operands it knows to be rendered non-empty). -/
def backtrack_fields (fields : List (Nat × String × String)) (reg : String) :
    List Insn → List (Nat × String)
  | [] => []
  | insn :: rest =>
    let m := insn.mnem.take 3
    if (m = "LDR" ∨ m = "MOV" ∨ m = "ORR" ∨ m = "BIC") ∧ insn.op 0 = reg then
      if m = "LDR" ∧ (insn.op 1).take 1 = "=" then
        [(0, "Set bits " ++ pyJoin ", "
              ((extract_bits fields insn.poolVal).map Prod.fst))]
      else if m = "MOV" ∧ (insn.op 1).take 1 = "#" then
        [(0, "Set bits " ++ pyJoin ", "
              ((extract_bits fields (insn.val 1)).map Prod.fst))]
      else if m = "ORR" ∧ (insn.op 2).take 1 = "#" then
        (0, "Set bit " ++ pyJoin ", "
              ((extract_bits fields (insn.val 2)).map Prod.snd))
          :: (backtrack_fields fields reg rest).map (fun p => (p.1 + 1, p.2))
      else if m = "BIC" ∧ (insn.op 2).take 1 = "#" then
        (0, "Clear bit " ++ pyJoin ", "
              ((extract_bits fields (insn.val 2)).map Prod.snd))
          :: (backtrack_fields fields reg rest).map (fun p => (p.1 + 1, p.2))
      else []
    else []

/-- Model of `track_fields` (lines 1409–1423) on the stream of instructions following
the anchor, head first.  `GetDisasm(ea)[3] == "S"` (the LSLS check) reads the
fourth character of the rendered disassembly line; `31 - shift` uses
truncated subtraction (Python raises on a negative shift, which cannot be
produced by a valid immediate shift amount). -/
def track_fields (fields : List (Nat × String × String)) (reg : String) :
    List Insn → List (Nat × String)
  | [] => []
  | insn :: rest =>
    let m := insn.mnem.take 3
    if (m = "TST" ∨ m = "TEQ") ∧ insn.op 0 = reg ∧ (insn.op 1).take 1 = "#" then
      (0, "Test bit " ++ pyJoin ", "
            ((extract_bits fields (insn.val 1)).map Prod.snd))
        :: (track_fields fields reg rest).map (fun p => (p.1 + 1, p.2))
    else if m = "AND" ∧ insn.op 1 = reg ∧ (insn.op 2).take 1 = "#" then
      (0, "Test bit " ++ pyJoin ", "
            ((extract_bits fields (insn.val 2)).map Prod.snd))
        :: (track_fields fields reg rest).map (fun p => (p.1 + 1, p.2))
    else if m = "LSL" ∧ insn.disasm.data.getD 3 ' ' = 'S'
            ∧ insn.op 1 = reg ∧ (insn.op 2).take 1 = "#" then
      (0, "Test bit " ++ pyJoin ", "
            ((extract_bits fields (1 <<< (31 - insn.val 2))).map Prod.snd))
        :: (track_fields fields reg rest).map (fun p => (p.1 + 1, p.2))
    else []

/-- The comment built by `identify_register` on a successful lookup
(line 1428): `("[%s] " + "\n or ".join(["%s (%s)"] * (len(desc)/2))) %
((access,) + desc)`, with Python-2 integer division. -/
def identify_register_cmt (access : String) (desc : List String) : String :=
  ⟨pyFmt ("[%s] " ++ pyJoin "\n or "
            (List.replicate (desc.length / 2) "%s (%s)")).data
    (access :: desc)⟩

/-- Outcome of `identify_register`: the two branches of lines 1426–1441.
`extra` records the `set_cmt` calls the invoked tracer makes on neighbouring
instructions (empty when no tracer runs). -/
inductive IdentifyResult where
  | resolved (cmt : String) (extra : List (Nat × String))
  | unknown (cmt : String)
  deriving DecidableEq, Repr

/-- Model of `identify_register` (lines 1425–1441).  `prevs`/`nexts` are the
instruction streams walked by `backtrack_fields` / `track_fields`.  The
Python default arguments (`cpu_reg = None`, `known_fields = {}`) correspond
to passing `""` and `[]`.  `if fields and len(desc) == 2` tests Python
truthiness of `fields`: `None` (no key) and the empty dict both fail. -/
def identify_register {α : Type} [DecidableEq α] (access : String) (sig : α)
    (known_regs : List (α × List String)) (cpu_reg : String)
    (known_fields : List (String × List (Nat × String × String)))
    (prevs nexts : List Insn) : IdentifyResult :=
  match dictGet known_regs sig with
  | some desc =>
    let cmt := identify_register_cmt access desc
    match dictGet known_fields (desc.headD "") with
    | some fields =>
      if fields ≠ [] ∧ desc.length = 2 then
        if access = ">" then
          .resolved cmt (backtrack_fields fields cpu_reg prevs)
        else
          .resolved cmt (track_fields fields cpu_reg nexts)
      else .resolved cmt []
    | none => .resolved cmt []
  | none => .unknown ("[" ++ access ++ "] Unknown system register.")

/-- The table `COPROC_REGISTERS_64` (lines 58–94): 64-bit registers accessible from
AArch32, keyed by `(coprocessor, opc1, CRm)`.  Alias tuples are flattened
exactly as the Python value tuples are. -/
def COPROC_REGISTERS_64 : List ((String × Nat × String) × List String) := [
  (("p15", 0, "c2"), ["TTBR0", "Translation Table Base Register 0"]),
  (("p15", 1, "c2"), ["TTBR1", "Translation Table Base Register 1"]),
  (("p15", 6, "c2"), ["VTTBR", "Virtualization Translation Table Base Register"]),
  (("p15", 4, "c2"), ["HTTBR", "Hyp Translation Table Base Register"]),
  (("p15", 0, "c7"), ["PAR", "Physical Address Register"]),
  (("p15", 0, "c9"), ["PMCCNTR", "Performance Monitors Cycle Count Register"]),
  (("p15", 0, "c14"), ["CNTPCT", "Counter-timer Physical Count register"]),
  (("p15", 1, "c14"), ["CNTVCT", "Counter-timer Virtual Count register"]),
  (("p15", 2, "c14"), ["CNTP_CVAL", "Counter-timer Physical Timer CompareValue register",
                       "CNTHP_CVAL", "Counter-timer Hyp Physical CompareValue register"]),
  (("p15", 3, "c14"), ["CNTV_CVAL", "Counter-timer Virtual Timer CompareValue register",
                       "CNTHV_CVAL", "Counter-timer Virtual Timer CompareValue register (EL2)"]),
  (("p15", 4, "c14"), ["CNTVOFF", "Counter-timer Virtual Offset register"]),
  (("p15", 6, "c14"), ["CNTHP_CVAL", "Counter-timer Hyp Physical CompareValue register"]),
  (("p15", 0, "c15"), ["CPUACTLR", "CPU Auxiliary Control Register"]),
  (("p15", 1, "c15"), ["CPUECTLR", "CPU Extended Control Register"]),
  (("p15", 2, "c15"), ["CPUMERRSR", "CPU Memory Error Syndrome Register"]),
  (("p15", 3, "c15"), ["L2MERRSR", "L2 Memory Error Syndrome Register"]),
  (("p15", 0, "c12"), ["ICC_SGI1R", "Interrupt Controller Software Generated Interrupt Group 1 Register"]),
  (("p15", 1, "c12"), ["ICC_ASGI1R", "Interrupt Controller Alias Software Generated Interrupt Group 1 Register"]),
  (("p15", 2, "c12"), ["ICC_SGI0R", "Interrupt Controller Software Generated Interrupt Group 0 Register"]),
  (("p15", 0, "c11"), ["N/A", "Preload Engine Program New Channel operation"]),
  (("p14", 0, "c1"), ["DBGDRAR", "Debug ROM Address Register"]),
  (("p14", 0, "c2"), ["DBGDSAR", "Debug Self Address Register"])]

/-- The table `ARM_MODES` (lines 1354–1363). -/
def ARM_MODES : List (Nat × String) := [
  (0b10000, "User"),
  (0b10001, "FIQ"),
  (0b10010, "IRQ"),
  (0b10011, "Supervisor"),
  (0b10110, "Monitor"),
  (0b10111, "Abort"),
  (0b11011, "Undefined"),
  (0b11111, "System")]

/-- Model of `markup_psr_insn` (lines 1483–1492): `none` when the second operand is
not an immediate (the function then does nothing), otherwise the comment it
sets on the instruction. -/
def markup_psr_insn (insn : Insn) : Option String :=
  if (insn.op 1).take 1 = "#" then
    let psr := insn.val 1
    let mode := (dictGet ARM_MODES (psr &&& 0b11111)).getD "Unknown"
    let e := if psr &&& (1 <<< 9) ≠ 0 then "E" else "-"
    let a := if psr &&& (1 <<< 8) ≠ 0 then "A" else "-"
    let i := if psr &&& (1 <<< 7) ≠ 0 then "I" else "-"
    let f := if psr &&& (1 <<< 6) ≠ 0 then "F" else "-"
    let t := if psr &&& (1 <<< 5) ≠ 0 then "T" else "-"
    some ("Set CPSR [" ++ e ++ a ++ i ++ f ++ t ++ "], Mode: " ++ mode)
  else none

/-- Model of `markup_coproc_reg64_insn` (lines 1443–1453): builds the three-field
signature `(cp, opc1, CRm)` (no CRn) and resolves it against
`COPROC_REGISTERS_64`; `identify_register` is called with its Python default
arguments, so no bitfield tracing can run. -/
def markup_coproc_reg64_insn (insn : Insn) : IdentifyResult :=
  let access := if insn.mnem.data.getD 1 ' ' = 'R' then "<" else ">"
  let op1 := insn.val 0
  let cp := "p" ++ toString insn.cpNum
  let parts := pySplit (insn.op 1) ','
  let crm := parts.getD 2 ""
  identify_register access (cp, op1, crm) COPROC_REGISTERS_64 "" [] [] []

/-- The extractor `markup_system_insn` (lines 1507–1519) dispatches to. -/
inductive Dispatch where
  | coproc64
  | coproc32
  | psr
  | pstate
  | sys64
  | nothing
  deriving DecidableEq, Repr

/-- The dispatch structure of `markup_system_insn` (lines 1507–1519):
which markup routine runs for a given architecture and instruction.
`not print_operand(ea, 2)` is the emptiness test on the rendered third
operand. -/
def markup_system_insn_dispatch (current_arch : String) (insn : Insn) :
    Dispatch :=
  if insn.mnem.take 4 = "MRRC" ∨ insn.mnem.take 4 = "MCRR" then .coproc64
  else if insn.mnem.take 3 = "MRC" ∨ insn.mnem.take 3 = "MCR" then .coproc32
  else if current_arch = "aarch32" ∧ insn.mnem.take 3 = "MSR" then .psr
  else if current_arch = "aarch64" ∧ insn.mnem.take 3 = "MSR"
          ∧ insn.op 2 = "" then .pstate
  else if current_arch = "aarch64"
          ∧ (insn.mnem.take 3 = "MSR" ∨ insn.mnem.take 3 = "MRS") then .sys64
  else .nothing

/-- Modelled from the spec (§4.3), for comparison with the code: the
annotation in the form the spec states, `"[<direction>] <long-name>
(<short-name>)"` with aliases joined by `" or "`. -/
def resolver_cmt_spec (access : String) (aliases : List (String × String)) :
    String :=
  "[" ++ access ++ "] "
    ++ pyJoin " or " (aliases.map (fun p => p.2 ++ " (" ++ p.1 ++ ")"))

/-- Flattening of a list of `(short-name, long-description)` alias pairs into
the shape of the catalog's value tuples. -/
def flattenPairs : List (String × String) → List String
  | [] => []
  | (s, l) :: r => s :: l :: flattenPairs r

/-! ## Theorems -/

/-- C1: the spec's classifier table is supposed to contain each of HINT,
BKPT, BXJ and RFE individually, but the source tuple misses the commas after
`"HINT"` and `"BXJ"`, so Python string-literal concatenation stores
`"HINTBKPT"` and `"BXJRFE"` instead and `is_system_insn` returns `false` on
all four mnemonics (no other classifier rule catches them either). -/
theorem hint_bkpt_bxj_rfe_not_system :
    is_system_insn "HINT" "" "" = false
    ∧ is_system_insn "BKPT" "" "" = false
    ∧ is_system_insn "BXJ" "" "" = false
    ∧ is_system_insn "RFE" "" "" = false
    ∧ SYSTEM_INSN.contains "HINTBKPT" = true
    ∧ SYSTEM_INSN.contains "BXJRFE" = true := by
  decide

/-- C9: at a location whose mnemonic renders empty (no decodable
instruction), `is_system_insn` is `false` whatever the operands render as —
the operand arguments do not influence the result. -/
theorem is_system_insn_empty_mnem (op0 op1 : String) :
    is_system_insn "" op0 op1 = false := by
  rfl

/-- C10: a mnemonic beginning with MRRC or MCRR dispatches to the 64-bit
coprocessor markup (`markup_coproc_reg64_insn`), never to the 32-bit one,
although the first three characters of `"MCRR"` also equal `"MCR"`: the
64-bit test is applied first. -/
theorem markup_dispatch_coproc64 (current_arch : String) (insn : Insn)
    (h : insn.mnem.take 4 = "MRRC" ∨ insn.mnem.take 4 = "MCRR") :
    markup_system_insn_dispatch current_arch insn = .coproc64
    ∧ markup_system_insn_dispatch current_arch insn ≠ .coproc32
    ∧ ("MCRR" : String).take 3 = "MCR" := by
  unfold markup_system_insn_dispatch
  rw [if_pos h]
  refine ⟨rfl, by simp, by decide⟩

/-- Witness for C10 at the concrete mnemonic `MCRR`. -/
theorem markup_dispatch_coproc64_witness :
    markup_system_insn_dispatch "aarch32" ⟨"MCRR", ["4", "R0,R1,c2"], [0], 0, 15, ""⟩
        = .coproc64
    ∧ markup_system_insn_dispatch "aarch32" ⟨"MCRR", ["4", "R0,R1,c2"], [0], 0, 15, ""⟩
        ≠ .coproc32
    ∧ ("MCRR" : String).take 3 = "MCR" :=
  markup_dispatch_coproc64 "aarch32" ⟨"MCRR", ["4", "R0,R1,c2"], [0], 0, 15, ""⟩
    (Or.inr (by decide))

/-- C5: a signature with no exact structural match in the catalog resolves to
the unknown outcome with the annotation `[<direction>] Unknown system
register.` — for every catalog, so no partial or guessed match is ever
produced. -/
theorem identify_register_unknown {α : Type} [DecidableEq α]
    (access : String) (sig : α) (known_regs : List (α × List String))
    (cpu_reg : String)
    (known_fields : List (String × List (Nat × String × String)))
    (prevs nexts : List Insn)
    (h : dictGet known_regs sig = none) :
    identify_register access sig known_regs cpu_reg known_fields prevs nexts
      = .unknown ("[" ++ access ++ "] Unknown system register.") := by
  unfold identify_register
  rw [h]

/-- Witness for C5: `(p15, 5, c2)` is in no entry of `COPROC_REGISTERS_64`. -/
theorem identify_register_unknown_witness :
    identify_register "<" (("p15", 5, "c2") : String × Nat × String)
        COPROC_REGISTERS_64 "" [] [] []
      = .unknown "[<] Unknown system register." :=
  (identify_register_unknown "<" ("p15", 5, "c2") COPROC_REGISTERS_64
    "" [] [] [] (by decide)).trans (by decide)

/-- C3: when the instruction immediately preceding the write anchor is a MOV
with an immediate second operand (or an LDR from a literal pool) targeting
the tracked register, the backward trace annotates exactly that instruction
with "Set bits …" and stops: whatever `rest` of the stream lies further back
is never visited or annotated. -/
theorem backtrack_fields_full_assignment_stops
    (fields : List (Nat × String × String)) (reg : String)
    (insn : Insn) (rest : List Insn)
    (hdest : insn.op 0 = reg)
    (hcase : insn.mnem.take 3 = "MOV" ∧ (insn.op 1).take 1 = "#"
           ∨ insn.mnem.take 3 = "LDR" ∧ (insn.op 1).take 1 = "=") :
    backtrack_fields fields reg (insn :: rest) =
      [(0, "Set bits " ++ pyJoin ", "
          ((extract_bits fields
              (if insn.mnem.take 3 = "LDR" then insn.poolVal
               else insn.val 1)).map Prod.fst))] := by
  rcases hcase with ⟨hm, hi⟩ | ⟨hm, hi⟩ <;>
    simp [backtrack_fields, hm, hi, hdest]

/-- Witness for C3: a MOV-immediate directly before the anchor, with another
candidate MOV further back that must not be annotated. -/
theorem backtrack_fields_full_assignment_stops_witness :
    backtrack_fields [(0, ("M", "MMU Enable")), (2, ("C", "Cache Enable"))]
        "R0"
        [⟨"MOV", ["R0", "#5"], [0, 5], 0, 0, ""⟩,
         ⟨"MOV", ["R0", "#7"], [0, 7], 0, 0, ""⟩]
      = [(0, "Set bits M, C")] :=
  (backtrack_fields_full_assignment_stops
      [(0, ("M", "MMU Enable")), (2, ("C", "Cache Enable"))] "R0"
      ⟨"MOV", ["R0", "#5"], [0, 5], 0, 0, ""⟩
      [⟨"MOV", ["R0", "#7"], [0, 7], 0, 0, ""⟩]
      (by decide) (Or.inl (by decide))).trans (by decide)

/-- C4: a backward trace that meets a BIC-immediate and then (further back)
an ORR-immediate on the tracked register annotates the BIC with "Clear bit …"
and the ORR with "Set bit …" (full bitfield names) and keeps stepping
backward into the remaining stream. -/
theorem backtrack_fields_orr_bic_accumulate
    (fields : List (Nat × String × String)) (reg : String)
    (bic orr : Insn) (rest : List Insn)
    (hb1 : bic.mnem.take 3 = "BIC") (hb2 : bic.op 0 = reg)
    (hb3 : (bic.op 2).take 1 = "#")
    (ho1 : orr.mnem.take 3 = "ORR") (ho2 : orr.op 0 = reg)
    (ho3 : (orr.op 2).take 1 = "#") :
    backtrack_fields fields reg (bic :: orr :: rest) =
      (0, "Clear bit " ++ pyJoin ", "
          ((extract_bits fields (bic.val 2)).map Prod.snd))
      :: (1, "Set bit " ++ pyJoin ", "
          ((extract_bits fields (orr.val 2)).map Prod.snd))
      :: (backtrack_fields fields reg rest).map (fun p => (p.1 + 2, p.2)) := by
  simp only [backtrack_fields, hb1, hb2, hb3, ho1, ho2, ho3]
  simp [List.map_map, Function.comp_def, Nat.add_assoc]

/-- Witness for C4: `BIC #0x1` then `ORR #0x4` against a two-entry bitfield
table, with an empty remaining stream. -/
theorem backtrack_fields_orr_bic_accumulate_witness :
    backtrack_fields [(0, ("M", "MMU Enable")), (2, ("C", "Cache Enable"))]
        "R0"
        [⟨"BIC", ["R0", "R0", "#0x1"], [0, 0, 1], 0, 0, ""⟩,
         ⟨"ORR", ["R0", "R0", "#0x4"], [0, 0, 4], 0, 0, ""⟩]
      = [(0, "Clear bit MMU Enable"), (1, "Set bit Cache Enable")] :=
  (backtrack_fields_orr_bic_accumulate
      [(0, ("M", "MMU Enable")), (2, ("C", "Cache Enable"))] "R0"
      ⟨"BIC", ["R0", "R0", "#0x1"], [0, 0, 1], 0, 0, ""⟩
      ⟨"ORR", ["R0", "R0", "#0x4"], [0, 0, 4], 0, 0, ""⟩ []
      (by decide) (by decide) (by decide)
      (by decide) (by decide) (by decide)).trans (by decide)

/-- C7: in a forward trace, an LSLS-shaped instruction (first three mnemonic
characters "LSL", fourth disassembly character 'S') whose second operand is
the tracked register and whose shift amount is an immediate is annotated as
testing bit `31 - shift` and the trace continues; an instruction matching
none of the TST/TEQ/AND/LSLS patterns stops the trace with no annotation. -/
theorem track_fields_lsls_continue_and_stop
    (fields : List (Nat × String × String)) (reg : String)
    (insn stop : Insn) (rest rest' : List Insn)
    (hm : insn.mnem.take 3 = "LSL") (hs : insn.disasm.data.getD 3 ' ' = 'S')
    (h1 : insn.op 1 = reg) (h2 : (insn.op 2).take 1 = "#")
    (hn1 : ¬((stop.mnem.take 3 = "TST" ∨ stop.mnem.take 3 = "TEQ")
          ∧ stop.op 0 = reg ∧ (stop.op 1).take 1 = "#"))
    (hn2 : ¬(stop.mnem.take 3 = "AND" ∧ stop.op 1 = reg
          ∧ (stop.op 2).take 1 = "#"))
    (hn3 : ¬(stop.mnem.take 3 = "LSL" ∧ stop.disasm.data.getD 3 ' ' = 'S'
          ∧ stop.op 1 = reg ∧ (stop.op 2).take 1 = "#")) :
    track_fields fields reg (insn :: rest) =
      (0, "Test bit " ++ pyJoin ", "
          ((extract_bits fields (1 <<< (31 - insn.val 2))).map Prod.snd))
        :: (track_fields fields reg rest).map (fun p => (p.1 + 1, p.2))
    ∧ track_fields fields reg (stop :: rest') = [] := by
  constructor
  · simp only [List.getD_eq_getElem?_getD] at hs
    simp [track_fields, hm, hs, h1, h2]
  · simp only [track_fields]
    rw [if_neg hn1, if_neg hn2, if_neg hn3]

/-- Witness for C7: `LSLS R1, R0, #31` (tests bit 0) followed by an ADD that
stops the trace. -/
theorem track_fields_lsls_continue_and_stop_witness :
    track_fields [(0, ("M", "MMU Enable"))] "R0"
        [⟨"LSLS", ["R1", "R0", "#31"], [0, 0, 31], 0, 0, "LSLS    R1, R0, #31"⟩]
      = [(0, "Test bit MMU Enable")]
    ∧ track_fields [(0, ("M", "MMU Enable"))] "R0"
        [⟨"ADD", ["R1", "R1", "#1"], [0, 0, 1], 0, 0, "ADD     R1, R1, #1"⟩]
      = [] := by
  have h := track_fields_lsls_continue_and_stop
    [(0, ("M", "MMU Enable"))] "R0"
    ⟨"LSLS", ["R1", "R0", "#31"], [0, 0, 31], 0, 0, "LSLS    R1, R0, #31"⟩
    ⟨"ADD", ["R1", "R1", "#1"], [0, 0, 1], 0, 0, "ADD     R1, R1, #1"⟩
    [] []
    (by decide) (by decide) (by decide) (by decide)
    (by decide) (by decide) (by decide)
  exact ⟨h.1.trans (by decide), h.2⟩

/-- C6: on a resolved signature, the neighbouring-instruction annotations
`extra` come from the tracer exactly when the entry holds one alias (a
two-element description) and a non-empty bitfield table exists for its
short-name; with several aliases, or no/empty table, no tracing annotation is
produced. -/
theorem identify_register_trace_iff {α : Type} [DecidableEq α]
    (access : String) (sig : α) (known_regs : List (α × List String))
    (cpu_reg : String)
    (known_fields : List (String × List (Nat × String × String)))
    (prevs nexts : List Insn) (desc : List String)
    (hres : dictGet known_regs sig = some desc) :
    ∃ extra,
      identify_register access sig known_regs cpu_reg known_fields prevs nexts
        = .resolved (identify_register_cmt access desc) extra
      ∧ (desc.length ≠ 2 → extra = [])
      ∧ (∀ fields, dictGet known_fields (desc.headD "") = some fields →
           fields ≠ [] → desc.length = 2 →
           extra = if access = ">" then backtrack_fields fields cpu_reg prevs
                   else track_fields fields cpu_reg nexts)
      ∧ (extra ≠ [] → desc.length = 2
           ∧ ∃ fields, dictGet known_fields (desc.headD "") = some fields
               ∧ fields ≠ []) := by
  simp only [identify_register, hres]
  cases hf : dictGet known_fields (desc.headD "") with
  | none =>
    refine ⟨[], rfl, fun _ => rfl, ?_, fun h => absurd rfl h⟩
    intro fields hfe
    exact absurd hfe (by simp)
  | some fields =>
    by_cases hc : fields ≠ [] ∧ desc.length = 2
    · by_cases ha : access = ">"
      · refine ⟨backtrack_fields fields cpu_reg prevs, ?_,
          fun hlen => absurd hc.2 hlen, ?_, fun _ => ⟨hc.2, fields, rfl, hc.1⟩⟩
        · simp [hc.1, hc.2, ha]
        · intro fields' hfe _ _
          cases hfe
          rw [if_pos ha]
      · refine ⟨track_fields fields cpu_reg nexts, ?_,
          fun hlen => absurd hc.2 hlen, ?_, fun _ => ⟨hc.2, fields, rfl, hc.1⟩⟩
        · simp [hc.1, hc.2, ha]
        · intro fields' hfe _ _
          cases hfe
          rw [if_neg ha]
    · refine ⟨[], ?_, fun _ => rfl, ?_, fun h => absurd rfl h⟩
      · simp [hc]
      · intro fields' hfe hne hlen
        cases hfe
        exact absurd ⟨hne, hlen⟩ hc

/-- Witness for C6: a one-alias entry with a non-empty field table, a write
access and a MOV-immediate as the preceding instruction; the tracer runs and
annotates it. -/
theorem identify_register_trace_iff_witness :
    ∃ extra,
      identify_register ">" 1 [(1, ["SCTLR", "System Control Register"])]
          "R0" [("SCTLR", [(0, ("M", "MMU Enable"))])]
          [⟨"MOV", ["R0", "#1"], [0, 1], 0, 0, ""⟩] []
        = .resolved
            (identify_register_cmt ">" ["SCTLR", "System Control Register"])
            extra
      ∧ ((["SCTLR", "System Control Register"] : List String).length ≠ 2 →
          extra = [])
      ∧ (∀ fields,
           dictGet [("SCTLR", [(0, ("M", "MMU Enable"))])]
               ((["SCTLR", "System Control Register"] : List String).headD "")
             = some fields →
           fields ≠ [] →
           (["SCTLR", "System Control Register"] : List String).length = 2 →
           extra = if (">" : String) = ">" then
                     backtrack_fields fields "R0"
                       [⟨"MOV", ["R0", "#1"], [0, 1], 0, 0, ""⟩]
                   else track_fields fields "R0" [])
      ∧ (extra ≠ [] → (["SCTLR", "System Control Register"] : List String).length = 2
           ∧ ∃ fields,
               dictGet [("SCTLR", [(0, ("M", "MMU Enable"))])]
                   ((["SCTLR", "System Control Register"] : List String).headD "")
                 = some fields
               ∧ fields ≠ []) :=
  identify_register_trace_iff ">" 1 [(1, ["SCTLR", "System Control Register"])]
    "R0" [("SCTLR", [(0, ("M", "MMU Enable"))])]
    [⟨"MOV", ["R0", "#1"], [0, 1], 0, 0, ""⟩] []
    ["SCTLR", "System Control Register"] (by decide)

/-- C8: the AArch32 PSR-immediate decoder turns the immediate `0b10011`
(mode bits only, flag bits clear) into the comment
`Set CPSR [-----], Mode: Supervisor`, and any immediate whose 5 low bits are
not a key of `ARM_MODES` renders its mode as `Unknown`. -/
theorem markup_psr_supervisor_and_unknown (insn : Insn)
    (himm : (insn.op 1).take 1 = "#")
    (hmode : dictGet ARM_MODES (insn.val 1 &&& 0b11111) = none) :
    markup_psr_insn ⟨"MSR", ["CPSR_c", "#0x13"], [0, 19], 0, 0, ""⟩
        = some "Set CPSR [-----], Mode: Supervisor"
    ∧ ∃ flags, markup_psr_insn insn
        = some ("Set CPSR [" ++ flags ++ "], Mode: Unknown") := by
  refine ⟨by decide, ?_⟩
  refine ⟨(if insn.val 1 &&& (1 <<< 9) ≠ 0 then "E" else "-")
    ++ ((if insn.val 1 &&& (1 <<< 8) ≠ 0 then "A" else "-")
    ++ ((if insn.val 1 &&& (1 <<< 7) ≠ 0 then "I" else "-")
    ++ ((if insn.val 1 &&& (1 <<< 6) ≠ 0 then "F" else "-")
    ++ (if insn.val 1 &&& (1 <<< 5) ≠ 0 then "T" else "-")))), ?_⟩
  have hu : ("], Mode: " : String) ++ "Unknown" = "], Mode: Unknown" := rfl
  simp only [markup_psr_insn, himm, if_pos, hmode, Option.getD_none,
    String.append_assoc, hu]

/-- Witness for C8: the immediate `#0` has mode bits `0b00000`, absent from
`ARM_MODES`, so the decoder renders `Mode: Unknown`. -/
theorem markup_psr_supervisor_and_unknown_witness :
    markup_psr_insn ⟨"MSR", ["CPSR_c", "#0x13"], [0, 19], 0, 0, ""⟩
        = some "Set CPSR [-----], Mode: Supervisor"
    ∧ ∃ flags, markup_psr_insn ⟨"MSR", ["CPSR_c", "#0"], [0, 0], 0, 0, ""⟩
        = some ("Set CPSR [" ++ flags ++ "], Mode: Unknown") :=
  markup_psr_supervisor_and_unknown ⟨"MSR", ["CPSR_c", "#0"], [0, 0], 0, 0, ""⟩
    (by decide) (by decide)

/-! ### The resolver's annotation format (C2) -/

theorem pyFmt_nil (args : List String) : pyFmt [] args = [] := rfl

theorem pyFmt_sub (r : List Char) (a : String) (rest : List String) :
    pyFmt ('%' :: 's' :: r) (a :: rest) = a.data ++ pyFmt r rest := rfl

theorem pyFmt_lit (c : Char) (cs : List Char) (args : List String)
    (h : c ≠ '%') : pyFmt (c :: cs) args = c :: pyFmt cs args := by
  rw [pyFmt.eq_def]
  split
  · rename_i heq
    exact absurd heq (List.cons_ne_nil c cs)
  · rename_i rest heq
    injection heq with h1 h2
    exact absurd h1 h
  · rename_i heq hnm
    injection heq with h1 h2
    subst h1
    subst h2
    rfl

theorem pyFmt_sp (cs : List Char) (args : List String) :
    pyFmt (' ' :: cs) args = ' ' :: pyFmt cs args :=
  pyFmt_lit _ _ _ (by decide)

theorem pyFmt_lpar (cs : List Char) (args : List String) :
    pyFmt ('(' :: cs) args = '(' :: pyFmt cs args :=
  pyFmt_lit _ _ _ (by decide)

theorem pyFmt_rpar (cs : List Char) (args : List String) :
    pyFmt (')' :: cs) args = ')' :: pyFmt cs args :=
  pyFmt_lit _ _ _ (by decide)

theorem pyFmt_nl (cs : List Char) (args : List String) :
    pyFmt ('\n' :: cs) args = '\n' :: pyFmt cs args :=
  pyFmt_lit _ _ _ (by decide)

theorem pyFmt_o (cs : List Char) (args : List String) :
    pyFmt ('o' :: cs) args = 'o' :: pyFmt cs args :=
  pyFmt_lit _ _ _ (by decide)

theorem pyFmt_r (cs : List Char) (args : List String) :
    pyFmt ('r' :: cs) args = 'r' :: pyFmt cs args :=
  pyFmt_lit _ _ _ (by decide)

theorem pyFmt_lbrack (cs : List Char) (args : List String) :
    pyFmt ('[' :: cs) args = '[' :: pyFmt cs args :=
  pyFmt_lit _ _ _ (by decide)

theorem pyFmt_rbrack (cs : List Char) (args : List String) :
    pyFmt (']' :: cs) args = ']' :: pyFmt cs args :=
  pyFmt_lit _ _ _ (by decide)

theorem pyJoin_one (sep x : String) : pyJoin sep [x] = x := rfl

theorem pyJoin_cons (sep x y : String) (r : List String) :
    pyJoin sep (x :: y :: r) = x ++ sep ++ pyJoin sep (y :: r) := rfl

theorem flattenPairs_length (pairs : List (String × String)) :
    (flattenPairs pairs).length = 2 * pairs.length := by
  induction pairs with
  | nil => rfl
  | cons p ps ih => simp [flattenPairs, ih]; ring

/-- Substituting the flattened alias pairs into the joined `%s (%s)` format
produces the member strings `short (long)` joined by `"\n or "`. -/
theorem pyFmt_join_pairs (pairs : List (String × String)) (h : pairs ≠ []) :
    pyFmt (pyJoin "\n or " (List.replicate pairs.length "%s (%s)")).data
        (flattenPairs pairs)
      = (pyJoin "\n or "
          (pairs.map (fun p => p.1 ++ " (" ++ p.2 ++ ")"))).data := by
  induction pairs with
  | nil => exact absurd rfl h
  | cons p ps ih =>
    obtain ⟨s, l⟩ := p
    cases ps with
    | nil =>
      show pyFmt ("%s (%s)" : String).data [s, l] = _
      have hd : ("%s (%s)" : String).data = ['%', 's', ' ', '(', '%', 's', ')'] := rfl
      rw [hd]
      simp [pyFmt_sub, pyFmt_sp, pyFmt_lpar, pyFmt_rpar, pyFmt_nil,
        pyJoin_one, String.data_append]
    | cons q qs =>
      have hrep : List.replicate ((s, l) :: q :: qs).length "%s (%s)"
          = "%s (%s)" :: "%s (%s)"
            :: List.replicate qs.length "%s (%s)" := rfl
      have hrep' : List.replicate (q :: qs).length "%s (%s)"
          = "%s (%s)" :: List.replicate qs.length "%s (%s)" := rfl
      rw [hrep, pyJoin_cons, ← hrep']
      have hmap : ((s, l) :: q :: qs).map (fun p => p.1 ++ " (" ++ p.2 ++ ")")
          = (s ++ " (" ++ l ++ ")") :: (q.1 ++ " (" ++ q.2 ++ ")")
            :: qs.map (fun p => p.1 ++ " (" ++ p.2 ++ ")") := rfl
      have hmap' : (q :: qs).map (fun p => p.1 ++ " (" ++ p.2 ++ ")")
          = (q.1 ++ " (" ++ q.2 ++ ")")
            :: qs.map (fun p => p.1 ++ " (" ++ p.2 ++ ")") := rfl
      rw [hmap, pyJoin_cons, ← hmap']
      have := ih (by simp)
      simp only [String.data_append] at this ⊢
      simp [pyFmt_sub, pyFmt_sp, pyFmt_lpar, pyFmt_rpar, pyFmt_nl, pyFmt_o,
        pyFmt_r, String.data_append, flattenPairs]
      simpa [flattenPairs] using this

/-- C2, amended: on a successful lookup the resolver's annotation is
`[<direction>] <short-name> (<long-description>)`, aliases joined by
`"\n or "` (a newline, then `" or "`) — the short name comes first and the
separator carries a leading newline, unlike the spec's sentence. -/
theorem identify_register_cmt_format (access : String)
    (pairs : List (String × String)) (h : pairs ≠ []) :
    identify_register_cmt access (flattenPairs pairs)
      = "[" ++ access ++ "] "
        ++ pyJoin "\n or " (pairs.map (fun p => p.1 ++ " (" ++ p.2 ++ ")")) := by
  have hlen : (flattenPairs pairs).length / 2 = pairs.length := by
    rw [flattenPairs_length]
    exact Nat.mul_div_cancel_left pairs.length (by norm_num)
  apply String.ext
  show pyFmt (("[%s] " ++ pyJoin "\n or "
      (List.replicate ((flattenPairs pairs).length / 2) "%s (%s)")).data)
      (access :: flattenPairs pairs) = _
  rw [hlen]
  simp [pyFmt_lbrack, pyFmt_rbrack, pyFmt_sp, pyFmt_sub,
    pyFmt_join_pairs pairs h, String.data_append]

/-- Witness for C2's amended statement at the catalog entry
`(p15, 0, c2) → TTBR0`. -/
theorem identify_register_cmt_format_witness :
    identify_register_cmt "<"
        (flattenPairs [("TTBR0", "Translation Table Base Register 0")])
      = "[" ++ "<" ++ "] "
        ++ pyJoin "\n or "
            ([("TTBR0", "Translation Table Base Register 0")].map
              (fun p => p.1 ++ " (" ++ p.2 ++ ")")) :=
  identify_register_cmt_format "<"
    [("TTBR0", "Translation Table Base Register 0")] (by simp)

/-- C2, counterexample to the spec's wording: for the resolving signatures
`(p15, 2, c14)` (two aliases) and `(p15, 0, c2)` (one alias, reached through
`markup_coproc_reg64_insn` on an MRRC) the emitted annotation puts the short
name first and separates aliases with `"\n or "`, so it differs from the
spec's `[<direction>] <long-name> (<short-name>)` form joined by `" or "`. -/
theorem resolver_cmt_spec_counterexample :
    identify_register ">" (("p15", 2, "c14") : String × Nat × String)
        COPROC_REGISTERS_64 "" [] [] []
      = .resolved
          "[>] CNTP_CVAL (Counter-timer Physical Timer CompareValue register)\n or CNTHP_CVAL (Counter-timer Hyp Physical CompareValue register)"
          []
    ∧ "[>] CNTP_CVAL (Counter-timer Physical Timer CompareValue register)\n or CNTHP_CVAL (Counter-timer Hyp Physical CompareValue register)"
      ≠ resolver_cmt_spec ">"
          [("CNTP_CVAL", "Counter-timer Physical Timer CompareValue register"),
           ("CNTHP_CVAL", "Counter-timer Hyp Physical CompareValue register")]
    ∧ markup_coproc_reg64_insn ⟨"MRRC", ["4", "R0,R1,c2"], [0], 0, 15, ""⟩
      = .resolved "[<] TTBR0 (Translation Table Base Register 0)" []
    ∧ "[<] TTBR0 (Translation Table Base Register 0)"
      ≠ resolver_cmt_spec "<"
          [("TTBR0", "Translation Table Base Register 0")] := by
  decide

end ArmHighlight
